import Mathlib

/-!
Verification of the core logic of the `isItUpOrNot` website-status checker
(`src/App.jsx`): URL normalization (`validateUrl`) and the check
orchestrator (`checkWebsite`) with its request construction, response
mapping and bounded history.
-/

namespace IsItUpOrNot

/-- JavaScript `s.startsWith(p)`: `p` is a literal character prefix of `s`. -/
def jsStartsWith (s p : String) : Bool :=
  p.data.isPrefixOf s.data

/-- JavaScript `s.trim()`: strip whitespace from both ends of the string. -/
def jsTrim (s : String) : String :=
  ⟨((s.data.dropWhile Char.isWhitespace).reverse.dropWhile Char.isWhitespace).reverse⟩

/-- Truthiness of a JS string value that may be `undefined`/`null` (`none`):
only a present, non-empty string is truthy. -/
def strTruthy : Option String → Bool
  | none => false
  | some s => !(s == "")

/-- Truthiness of a JS number value that may be `undefined`/`null` (`none`):
only a present, non-zero number is truthy. -/
def natTruthy : Option Nat → Bool
  | none => false
  | some n => !(n == 0)

/-- JS `a || b` where `a` is an optional string and `b` a string. -/
def orStr (a : Option String) (b : String) : String :=
  match a with
  | some s => if s == "" then b else s
  | none => b

/-- JS `a || b` where `a` is an optional number and `b` a number. -/
def orNat (a : Option Nat) (b : Nat) : Nat :=
  match a with
  | some n => if n == 0 then b else n
  | none => b

/-- JS `a || b` where both operands are optional numbers (the result may be
`undefined`, as in `data.status_code || data.statusCode`). -/
def orOptNat (a b : Option Nat) : Option Nat :=
  match a with
  | some n => if n == 0 then b else some n
  | none => b

/-- The scheme-prepending step of `validateUrl`: if the string starts with
neither `http://` nor `https://`, prepend `https://`. -/
def addScheme (urlString : String) : String :=
  if !(jsStartsWith urlString "http://") && !(jsStartsWith urlString "https://") then
    "https://" ++ urlString
  else
    urlString

/-- `validateUrl` from `src/App.jsx`. `parseOK` models the platform builtin
`new URL(u)` succeeding (not throwing) on the string `u`; on success the
function returns the scheme-prefixed string itself, on failure `null`. -/
def validateUrl (parseOK : String → Bool) (urlString : String) : Option String :=
  let u := addScheme urlString
  if parseOK u then some u else none

/-- A concrete stand-in for `new URL` used to instantiate witnesses:
accepts every string. -/
def acceptAll : String → Bool := fun _ => true

theorem jsStartsWith_append (p s : String) : jsStartsWith (p ++ s) p = true := by
  simp only [jsStartsWith, String.data_append]
  exact List.isPrefixOf_iff_prefix.mpr (List.prefix_append _ _)

theorem addScheme_eq_self (s : String)
    (h : jsStartsWith s "http://" = true ∨ jsStartsWith s "https://" = true) :
    addScheme s = s := by
  rcases h with h | h <;> simp [addScheme, h]

theorem addScheme_eq_prepend (s : String)
    (h1 : jsStartsWith s "http://" = false) (h2 : jsStartsWith s "https://" = false) :
    addScheme s = "https://" ++ s := by
  simp [addScheme, h1, h2]

theorem addScheme_addScheme (s : String) : addScheme (addScheme s) = addScheme s := by
  by_cases h1 : jsStartsWith s "http://" = true
  · have h := addScheme_eq_self s (Or.inl h1)
    rw [h, h]
  · by_cases h2 : jsStartsWith s "https://" = true
    · have h := addScheme_eq_self s (Or.inr h2)
      rw [h, h]
    · rw [addScheme_eq_prepend s (by simpa using h1) (by simpa using h2)]
      exact addScheme_eq_self _ (Or.inr (jsStartsWith_append _ _))

/-- Claim C1: for input not starting with `http://` or `https://`,
`validateUrl` prepends `https://`; for input already carrying one of the two
schemes it leaves the string unchanged; and whenever the resulting string
parses as a well-formed URL, `validateUrl` returns exactly that string. -/
theorem validateUrl_normalizes (parseOK : String → Bool) (s : String)
    (h : parseOK (addScheme s) = true) :
    validateUrl parseOK s = some (addScheme s) ∧
    (jsStartsWith s "http://" = true ∨ jsStartsWith s "https://" = true →
      addScheme s = s) ∧
    (jsStartsWith s "http://" = false ∧ jsStartsWith s "https://" = false →
      addScheme s = "https://" ++ s) := by
  exact ⟨by simp [validateUrl, h], addScheme_eq_self s,
    fun ⟨h1, h2⟩ => addScheme_eq_prepend s h1 h2⟩

theorem validateUrl_normalizes_witness :
    validateUrl acceptAll "google.com" = some "https://google.com" ∧
    addScheme "google.com" = "https://" ++ "google.com" := by
  have h := validateUrl_normalizes acceptAll "google.com" (by decide)
  exact ⟨by rw [h.1]; decide, h.2.2 (by decide)⟩

/-- Claim C8: normalization is idempotent — if `validateUrl` succeeds on `s`
with result `u`, then applying it to `u` succeeds and returns `u` itself. -/
theorem validateUrl_idempotent (parseOK : String → Bool) (s u : String)
    (h : validateUrl parseOK s = some u) :
    validateUrl parseOK u = some u := by
  have hok : parseOK (addScheme s) = true := by
    by_contra hc
    simp [validateUrl, hc] at h
  have hu : u = addScheme s := by
    simp [validateUrl, hok] at h
    exact h.symm
  subst hu
  simp [validateUrl, addScheme_addScheme, hok]

theorem validateUrl_idempotent_witness :
    validateUrl acceptAll "https://google.com" = some "https://google.com" :=
  validateUrl_idempotent acceptAll "google.com" "https://google.com" (by decide)

/-- The JSON data the backend may return (`data` after `response.json()`);
absent fields are `none`, numbers are modelled as naturals. `is_up` is the
truthiness of the corresponding JSON value. -/
structure ResponseData where
  status : Option String
  is_up : Bool
  response_time : Option Nat
  responseTime : Option Nat
  status_code : Option Nat
  statusCode : Option Nat
  message : Option String
deriving DecidableEq, Repr

/-- The display record `result` built in `checkWebsite` on success; it has
exactly the six fields of the source object literal. -/
structure StatusRecord where
  url : String
  status : String
  responseTime : Nat
  timestamp : String
  statusCode : Option Nat
  message : String
deriving DecidableEq, Repr

/-- An entry of the history list: the spread of a display record plus the
`id` taken from `Date.now()`. -/
structure HistoryEntry where
  record : StatusRecord
  id : Nat
deriving DecidableEq, Repr

/-- The React component state: the five `useState` hooks of
`WebsiteStatusChecker`. -/
structure CheckerState where
  url : String
  status : Option StatusRecord
  loading : Bool
  error : String
  history : List HistoryEntry
deriving DecidableEq, Repr

/-- The initial component state (the `useState` defaults). -/
def initialState : CheckerState :=
  { url := "", status := none, loading := false, error := "", history := [] }

/-- A JSON value, used for the request body. -/
inductive Json where
  | str (s : String)
  | num (n : Nat)
  | obj (fields : List (String × Json))

/-- A network request as issued by `fetch`. -/
structure Request where
  endpoint : String
  method : String
  headers : List (String × String)
  body : Json

/-- The fixed backend endpoint constant `backendUrl` of `src/App.jsx`. -/
def backendUrl : String :=
  "https://nqs65ghim4dte2aghjwivmjkd40tlmmd.lambda-url.us-east-1.on.aws/"

/-- Everything the single `fetch` exchange can do: the promise rejects with
an error message, or a response arrives with its `ok` flag, HTTP status and
a body that either fails to parse as JSON (with a parse-error message) or
parses to `ResponseData`. -/
inductive FetchOutcome where
  | reject (message : String)
  | response (ok : Bool) (httpStatus : Nat) (body : Except String ResponseData)

/-- Ambient values read by `checkWebsite`: the `new URL` parser, the ISO
timestamp `new Date().toISOString()` and the millisecond clock `Date.now()`. -/
structure Env where
  parseOK : String → Bool
  nowISO : String
  nowMs : Nat

/-- The error text built in the `catch` block. -/
def failText (m : String) : String :=
  "Failed to check website: " ++ m ++ ". Please try again."

/-- The request constructed in `checkWebsite`: a POST of the JSON object
with the single field `url` to the fixed backend endpoint. -/
def theRequest (validatedUrl : String) : Request :=
  { endpoint := backendUrl
  , method := "POST"
  , headers := [("Content-Type", "application/json")]
  , body := Json.obj [("url", Json.str validatedUrl)] }

/-- The display record built from the backend JSON, with the source's
`||` defaults. -/
def buildResult (validatedUrl : String) (nowISO : String) (data : ResponseData) :
    StatusRecord :=
  { url := validatedUrl
  , status := orStr data.status (if data.is_up then "UP" else "DOWN")
  , responseTime := orNat data.response_time (orNat data.responseTime 0)
  , timestamp := nowISO
  , statusCode := orOptNat data.status_code data.statusCode
  , message := orStr data.message "" }

/-- The `try`/`catch`/`finally` part of `checkWebsite`, applied to the state
after loading has been set, and error and status cleared: non-ok responses
throw, JSON parse failures and rejections land in `catch` and set the error,
successes set the status record and push it onto the history (keeping at
most the previous 4 entries); `finally` clears `loading`. -/
def applyOutcome (env : Env) (outcome : FetchOutcome) (validatedUrl : String)
    (st : CheckerState) : CheckerState :=
  match outcome with
  | .reject m => { st with error := failText m, loading := false }
  | .response ok httpStatus body =>
    if !ok then
      { st with error := failText ("HTTP error! status: " ++ toString httpStatus)
              , loading := false }
    else
      match body with
      | .error m => { st with error := failText m, loading := false }
      | .ok data =>
        let result := buildResult validatedUrl env.nowISO data
        { st with status := some result
                , history := { record := result, id := env.nowMs } :: st.history.take 4
                , loading := false }

/-- `checkWebsite` from `src/App.jsx` as a state transformer: returns the
new component state and the list of network requests issued during the
invocation. The two early returns issue no request; otherwise exactly the
one `fetch` request is issued and `outcome` describes its result. -/
def checkWebsite (env : Env) (outcome : FetchOutcome) (st : CheckerState) :
    CheckerState × List Request :=
  if jsTrim st.url = "" then
    ({ st with error := "Please enter a website URL" }, [])
  else
    match validateUrl env.parseOK (jsTrim st.url) with
    | none =>
      ({ st with error := "Please enter a valid URL (e.g., google.com or https://google.com)" }, [])
    | some validatedUrl =>
      let st1 := { st with loading := true, error := "", status := none }
      (applyOutcome env outcome validatedUrl st1, [theRequest validatedUrl])

/-- One user interaction: the text typed into the input box and the ambient
values and fetch outcome of the `checkWebsite` invocation it triggers. -/
structure StepInput where
  typed : String
  env : Env
  outcome : FetchOutcome

/-- Perform one check: the typed text becomes the `url` state (via the
input's onChange) and `checkWebsite` runs on the resulting state. -/
def runStep (st : CheckerState) (i : StepInput) : CheckerState :=
  (checkWebsite i.env i.outcome { st with url := i.typed }).1

/-- A session: a sequence of checks starting from the initial state. -/
def runSteps (steps : List StepInput) : CheckerState :=
  steps.foldl runStep initialState

theorem runStep_history (st : CheckerState) (i : StepInput) :
    (runStep st i).history = st.history ∨
    ∃ e, (runStep st i).history = e :: st.history.take 4 := by
  unfold runStep checkWebsite
  by_cases h0 : jsTrim i.typed = ""
  · simp [h0]
  · simp only [h0]
    cases h : validateUrl i.env.parseOK (jsTrim i.typed) with
    | none => simp [h0, h]
    | some v =>
      simp only [h0, h]
      cases i.outcome with
      | reject m => simp [applyOutcome]
      | response ok code body =>
        cases ok with
        | false => simp [applyOutcome]
        | true =>
          cases body with
          | error m => simp [applyOutcome]
          | ok data =>
            exact Or.inr ⟨{ record := buildResult v i.env.nowISO data, id := i.env.nowMs },
              by simp [applyOutcome]⟩

theorem runStep_history_le (st : CheckerState) (i : StepInput)
    (h : st.history.length ≤ 5) : (runStep st i).history.length ≤ 5 := by
  rcases runStep_history st i with hh | ⟨e, hh⟩ <;> rw [hh]
  · exact h
  · simp only [List.length_cons, List.length_take]
    omega

/-- Claim C2: in every session of checks starting from the empty history,
the history after each check holds at most 5 records; each check either
leaves the history unchanged or conses one new record onto at most the 4
most recent previous records. -/
theorem history_bounded (steps : List StepInput) :
    (runSteps steps).history.length ≤ 5 ∧
    ∀ st i, (runStep st i).history = st.history ∨
      ∃ e, (runStep st i).history = e :: st.history.take 4 := by
  refine ⟨?_, runStep_history⟩
  have key : ∀ (l : List StepInput) (st : CheckerState),
      st.history.length ≤ 5 → (l.foldl runStep st).history.length ≤ 5 := by
    intro l
    induction l with
    | nil => intro st h; exact h
    | cons i l ih => intro st h; exact ih _ (runStep_history_le st i h)
  exact key steps initialState (by simp [initialState])

/-- Claim C7: every invocation of `checkWebsite` issues at most one network
request; no retry happens within the invocation. -/
theorem checkWebsite_at_most_one_request (env : Env) (outcome : FetchOutcome)
    (st : CheckerState) : ((checkWebsite env outcome st).2).length ≤ 1 := by
  unfold checkWebsite
  by_cases h0 : jsTrim st.url = ""
  · simp [h0]
  · cases h : validateUrl env.parseOK (jsTrim st.url) <;> simp [h0, h]

/-- Claim C6: an input whose trimmed text is empty, or which is not a
well-formed URL after scheme normalization, sets an error message and
issues no request; a request is issued only when normalization yields a
well-formed URL. -/
theorem checkWebsite_validation_gate (env : Env) (outcome : FetchOutcome)
    (st : CheckerState) :
    (jsTrim st.url = "" →
      (checkWebsite env outcome st).2 = [] ∧
      (checkWebsite env outcome st).1.error = "Please enter a website URL") ∧
    (jsTrim st.url ≠ "" → validateUrl env.parseOK (jsTrim st.url) = none →
      (checkWebsite env outcome st).2 = [] ∧
      (checkWebsite env outcome st).1.error =
        "Please enter a valid URL (e.g., google.com or https://google.com)") ∧
    ((checkWebsite env outcome st).2 ≠ [] →
      ∃ v, validateUrl env.parseOK (jsTrim st.url) = some v) := by
  refine ⟨fun h0 => by simp [checkWebsite, h0], fun h0 h1 => by simp [checkWebsite, h0, h1], ?_⟩
  intro hreq
  by_cases h0 : jsTrim st.url = ""
  · simp [checkWebsite, h0] at hreq
  · cases h : validateUrl env.parseOK (jsTrim st.url) with
    | none => simp [checkWebsite, h0, h] at hreq
    | some v => exact ⟨v, rfl⟩

/-- Claim C9: when `checkWebsite` rejects the input (empty trimmed text or
failed validation), every piece of state other than the error message — the
url, the current status record, the loading flag and the history — is left
unchanged. -/
theorem checkWebsite_reject_frame (env : Env) (outcome : FetchOutcome)
    (st : CheckerState)
    (h : jsTrim st.url = "" ∨ validateUrl env.parseOK (jsTrim st.url) = none) :
    (checkWebsite env outcome st).1.url = st.url ∧
    (checkWebsite env outcome st).1.status = st.status ∧
    (checkWebsite env outcome st).1.loading = st.loading ∧
    (checkWebsite env outcome st).1.history = st.history := by
  rcases h with h | h
  · simp [checkWebsite, h]
  · by_cases h0 : jsTrim st.url = ""
    · simp [checkWebsite, h0]
    · simp [checkWebsite, h0, h]

/-- Claim C4: when validation passes, exactly one request is issued: a POST
to the fixed backend endpoint with header `Content-Type: application/json`
whose body is the JSON serialization of the object with the single field
`url` holding the normalized URL. -/
theorem checkWebsite_single_post_request (env : Env) (outcome : FetchOutcome)
    (st : CheckerState) (v : String)
    (h0 : jsTrim st.url ≠ "") (h : validateUrl env.parseOK (jsTrim st.url) = some v) :
    (checkWebsite env outcome st).2 = [theRequest v] ∧
    (theRequest v).endpoint = backendUrl ∧
    (theRequest v).method = "POST" ∧
    (theRequest v).headers = [("Content-Type", "application/json")] ∧
    (theRequest v).body = Json.obj [("url", Json.str v)] := by
  exact ⟨by simp [checkWebsite, h0, h], rfl, rfl, rfl, rfl⟩

/-- Claim C5: when the exchange succeeds (response ok, body parses as JSON),
the new status is exactly the display record built by `buildResult` — a
`StatusRecord`, whose fields are precisely url, status, responseTime,
timestamp, statusCode and message — with its url equal to the normalized
URL that was submitted and its timestamp the current ISO time. -/
theorem checkWebsite_success_record (env : Env) (st : CheckerState)
    (code : Nat) (data : ResponseData) (v : String)
    (h0 : jsTrim st.url ≠ "") (h : validateUrl env.parseOK (jsTrim st.url) = some v) :
    (checkWebsite env (.response true code (.ok data)) st).1.status =
      some (buildResult v env.nowISO data) ∧
    (buildResult v env.nowISO data).url = v ∧
    (buildResult v env.nowISO data).timestamp = env.nowISO := by
  exact ⟨by simp [checkWebsite, h0, h, applyOutcome], rfl, rfl⟩

/-- Amended claim C3: when the network exchange fails (the fetch rejects,
or the response has a non-ok HTTP status), `checkWebsite` maps the failure
into an error message, clears the current status, stops loading, and leaves
the history unchanged; failed checks are not appended to the history. -/
theorem checkWebsite_failure_sets_error (env : Env) (st : CheckerState)
    (m : String) (code : Nat) (body : Except String ResponseData) (v : String)
    (h0 : jsTrim st.url ≠ "") (h : validateUrl env.parseOK (jsTrim st.url) = some v) :
    ((checkWebsite env (.reject m) st).1.error = failText m ∧
      (checkWebsite env (.reject m) st).1.history = st.history ∧
      (checkWebsite env (.reject m) st).1.status = none ∧
      (checkWebsite env (.reject m) st).1.loading = false) ∧
    ((checkWebsite env (.response false code body) st).1.error =
        failText ("HTTP error! status: " ++ toString code) ∧
      (checkWebsite env (.response false code body) st).1.history = st.history ∧
      (checkWebsite env (.response false code body) st).1.status = none ∧
      (checkWebsite env (.response false code body) st).1.loading = false) := by
  constructor <;> refine ⟨?_, ?_, ?_, ?_⟩ <;> simp [checkWebsite, h0, h, applyOutcome]

/-- Claim C3 as stated is false: on a failed exchange the code only sets an
error message; no display record is produced and nothing is appended to the
history. Concretely, checking `google.com` when the fetch rejects leaves
the history empty and the status cleared. -/
theorem failure_not_appended_counterexample :
    (checkWebsite { parseOK := acceptAll, nowISO := "2025-01-01T00:00:00.000Z", nowMs := 0 }
        (.reject "Failed to fetch") { initialState with url := "google.com" }).1.history = [] ∧
    (checkWebsite { parseOK := acceptAll, nowISO := "2025-01-01T00:00:00.000Z", nowMs := 0 }
        (.reject "Failed to fetch") { initialState with url := "google.com" }).1.status = none ∧
    ((checkWebsite { parseOK := acceptAll, nowISO := "2025-01-01T00:00:00.000Z", nowMs := 0 }
        (.reject "Failed to fetch") { initialState with url := "google.com" }).2).length = 1 := by
  refine ⟨by decide, by decide, by decide⟩

theorem orStr_falsy (a : Option String) (b : String) (h : strTruthy a = false) :
    orStr a b = b := by
  cases a with
  | none => rfl
  | some s =>
    simp only [strTruthy] at h
    simp only [orStr]
    simp at h
    simp [h]

theorem orNat_falsy (a : Option Nat) (b : Nat) (h : natTruthy a = false) :
    orNat a b = b := by
  cases a with
  | none => rfl
  | some n =>
    simp only [natTruthy] at h
    simp only [orNat]
    simp at h
    simp [h]

/-- Claim C10: the display record applies fixed defaults to falsy response
fields: falsy `status` yields `UP` exactly when `is_up` is truthy and
`DOWN` otherwise; `responseTime` defaults to 0 when both `response_time`
and `responseTime` are falsy; `message` defaults to the empty string. -/
theorem buildResult_defaults (v ts : String) (data : ResponseData) :
    (strTruthy data.status = false →
      (buildResult v ts data).status = if data.is_up then "UP" else "DOWN") ∧
    (natTruthy data.response_time = false → natTruthy data.responseTime = false →
      (buildResult v ts data).responseTime = 0) ∧
    (strTruthy data.message = false → (buildResult v ts data).message = "") := by
  refine ⟨fun h1 => ?_, fun h1 h2 => ?_, fun h1 => ?_⟩
  · simp [buildResult, orStr_falsy _ _ h1]
  · simp [buildResult, orNat_falsy _ _ h1, orNat_falsy _ _ h2]
  · simp [buildResult, orStr_falsy _ _ h1]

/-- A concrete environment used to instantiate the theorems. -/
def envW : Env :=
  { parseOK := acceptAll, nowISO := "2025-01-01T00:00:00.000Z", nowMs := 1735689600000 }

/-- A concrete prior display record. -/
def priorRecord : StatusRecord :=
  { url := "https://prior.example", status := "UP", responseTime := 12
  , timestamp := "2024-12-31T23:59:59.000Z", statusCode := some 200, message := "" }

/-- A concrete state holding a valid input and a previously displayed record. -/
def stW : CheckerState :=
  { url := "google.com", status := some priorRecord, loading := false
  , error := "", history := [] }

/-- A concrete state whose input is empty while a record is displayed. -/
def stEmptyW : CheckerState :=
  { url := "", status := some priorRecord, loading := false
  , error := "", history := [] }

/-- A concrete backend response with falsy status, response times and message. -/
def dataW : ResponseData :=
  { status := none, is_up := true, response_time := none, responseTime := none
  , status_code := some 200, statusCode := none, message := none }

theorem checkWebsite_validation_gate_witness :
    (checkWebsite envW (.reject "x") stEmptyW).2 = [] ∧
    (checkWebsite envW (.reject "x") stEmptyW).1.error = "Please enter a website URL" :=
  (checkWebsite_validation_gate envW (.reject "x") stEmptyW).1 (by decide)

theorem checkWebsite_reject_frame_witness :
    (checkWebsite envW (.reject "x") stEmptyW).1.url = stEmptyW.url ∧
    (checkWebsite envW (.reject "x") stEmptyW).1.status = stEmptyW.status ∧
    (checkWebsite envW (.reject "x") stEmptyW).1.loading = stEmptyW.loading ∧
    (checkWebsite envW (.reject "x") stEmptyW).1.history = stEmptyW.history :=
  checkWebsite_reject_frame envW (.reject "x") stEmptyW (Or.inl (by decide))

theorem checkWebsite_single_post_request_witness :
    (checkWebsite envW (.reject "x") stW).2 = [theRequest "https://google.com"] ∧
    (theRequest "https://google.com").endpoint = backendUrl ∧
    (theRequest "https://google.com").method = "POST" ∧
    (theRequest "https://google.com").headers = [("Content-Type", "application/json")] ∧
    (theRequest "https://google.com").body =
      Json.obj [("url", Json.str "https://google.com")] :=
  checkWebsite_single_post_request envW (.reject "x") stW "https://google.com"
    (by decide) (by decide)

theorem checkWebsite_success_record_witness :
    (checkWebsite envW (.response true 200 (.ok dataW)) stW).1.status =
      some (buildResult "https://google.com" envW.nowISO dataW) ∧
    (buildResult "https://google.com" envW.nowISO dataW).url = "https://google.com" ∧
    (buildResult "https://google.com" envW.nowISO dataW).timestamp = envW.nowISO :=
  checkWebsite_success_record envW stW 200 dataW "https://google.com"
    (by decide) (by decide)

theorem checkWebsite_failure_sets_error_witness :
    ((checkWebsite envW (.reject "Failed to fetch") stW).1.error =
        failText "Failed to fetch" ∧
      (checkWebsite envW (.reject "Failed to fetch") stW).1.history = stW.history ∧
      (checkWebsite envW (.reject "Failed to fetch") stW).1.status = none ∧
      (checkWebsite envW (.reject "Failed to fetch") stW).1.loading = false) ∧
    ((checkWebsite envW (.response false 503 (.error "x")) stW).1.error =
        failText ("HTTP error! status: " ++ toString 503) ∧
      (checkWebsite envW (.response false 503 (.error "x")) stW).1.history = stW.history ∧
      (checkWebsite envW (.response false 503 (.error "x")) stW).1.status = none ∧
      (checkWebsite envW (.response false 503 (.error "x")) stW).1.loading = false) :=
  checkWebsite_failure_sets_error envW stW "Failed to fetch" 503 (.error "x")
    "https://google.com" (by decide) (by decide)

theorem buildResult_defaults_witness :
    (buildResult "https://google.com" "2025-01-01T00:00:00.000Z" dataW).status =
      (if dataW.is_up then "UP" else "DOWN") ∧
    (buildResult "https://google.com" "2025-01-01T00:00:00.000Z" dataW).responseTime = 0 ∧
    (buildResult "https://google.com" "2025-01-01T00:00:00.000Z" dataW).message = "" := by
  have h := buildResult_defaults "https://google.com" "2025-01-01T00:00:00.000Z" dataW
  exact ⟨h.1 (by decide), h.2.1 (by decide) (by decide), h.2.2 (by decide)⟩

end IsItUpOrNot
